import Mathlib

/-!
Verification of the 3DS2 utility module
(`packages/lib/src/components/ThreeDS2/components/utils.ts`): token
decoding, result encoding, challenge-window-size validation, challenge and
fingerprint parameter building, and error-code classification.

Helpers that the module imports from elsewhere in the repository
(`base64`, `getOrigin`, the window-size and error-message tables) and the
environment built-ins (`JSON.stringify` / `JSON.parse`) are modelled from
the specification; their definitions carry a `Modelled from the spec:`
doc comment.
-/

set_option maxRecDepth 10000

namespace ThreeDS2

/-! ## Base64 codec

Modelled from the spec: the repository's `utils/base64` module is not part
of the sources under verification; the spec describes it only as the
base64 encode/decode pair used for tokens and results.  We model RFC 4648
base64 over Latin-1 code units (the `btoa`/`atob` model), with `decode`
returning `none` (a JS-falsy result) on input that is not valid base64. -/

namespace base64

/-- The base64 alphabet: sextet value to character. -/
def encodeChar (n : Nat) : Char :=
  if n < 26 then Char.ofNat (65 + n)
  else if n < 52 then Char.ofNat (97 + (n - 26))
  else if n < 62 then Char.ofNat (48 + (n - 52))
  else if n = 62 then Char.ofNat 43
  else Char.ofNat 47

/-- The base64 alphabet, inverse direction: character to sextet value. -/
def decodeChar (c : Char) : Option Nat :=
  if 65 ≤ c.toNat ∧ c.toNat ≤ 90 then some (c.toNat - 65)
  else if 97 ≤ c.toNat ∧ c.toNat ≤ 122 then some (c.toNat - 97 + 26)
  else if 48 ≤ c.toNat ∧ c.toNat ≤ 57 then some (c.toNat - 48 + 52)
  else if c.toNat = 43 then some 62
  else if c.toNat = 47 then some 63
  else none

/-- Encode a byte list, three bytes to four characters, `=`-padded. -/
def encodeChunks : List Nat → List Char
  | [] => []
  | [b0] =>
      [encodeChar (b0 / 4), encodeChar (b0 % 4 * 16), '=', '=']
  | [b0, b1] =>
      [encodeChar (b0 / 4), encodeChar (b0 % 4 * 16 + b1 / 16),
       encodeChar (b1 % 16 * 4), '=']
  | b0 :: b1 :: b2 :: rest =>
      encodeChar (b0 / 4) :: encodeChar (b0 % 4 * 16 + b1 / 16) ::
      encodeChar (b1 % 16 * 4 + b2 / 64) :: encodeChar (b2 % 64) ::
      encodeChunks rest

/-- Decode four characters to three bytes, handling `=`-padding in the
final quad; `none` on any character outside the alphabet or misplaced
padding. -/
def decodeChunks : List Char → Option (List Nat)
  | [] => some []
  | c0 :: c1 :: c2 :: c3 :: rest =>
      match decodeChar c0, decodeChar c1 with
      | some n0, some n1 =>
          if c2 = '=' then
            if c3 = '=' ∧ rest = [] then some [n0 * 4 + n1 / 16] else none
          else
            match decodeChar c2 with
            | some n2 =>
                if c3 = '=' then
                  if rest = [] then
                    some [n0 * 4 + n1 / 16, n1 % 16 * 16 + n2 / 4]
                  else none
                else
                  match decodeChar c3, decodeChunks rest with
                  | some n3, some tail =>
                      some ((n0 * 4 + n1 / 16) :: (n1 % 16 * 16 + n2 / 4) ::
                            (n2 % 4 * 64 + n3) :: tail)
                  | _, _ => none
            | none => none
      | _, _ => none
  | _ => none

/-- `base64.encode`: encode a string, one byte per character. -/
def encode (s : String) : String :=
  String.mk (encodeChunks (s.data.map Char.toNat))

/-- `base64.decode`: decode a base64 string; `none` models the JS-falsy
result the repository's decoder yields on invalid input. -/
def decode (s : String) : Option String :=
  (decodeChunks s.data).map (fun bs => String.mk (bs.map Char.ofNat))

theorem decodeChar_encodeChar : ∀ n, n < 64 → decodeChar (encodeChar n) = some n := by
  decide

theorem encodeChar_ne_eq : ∀ n, n < 64 → encodeChar n ≠ '=' := by
  decide

theorem decodeChunks_encodeChunks :
    ∀ l : List Nat, (∀ b ∈ l, b < 256) →
      decodeChunks (encodeChunks l) = some l
  | [], _ => by simp [encodeChunks, decodeChunks]
  | [b0], h => by
      have hb0 : b0 < 256 := h b0 (by simp)
      have h1 := decodeChar_encodeChar (b0 / 4) (by omega)
      have h2 := decodeChar_encodeChar (b0 % 4 * 16) (by omega)
      simp only [encodeChunks, decodeChunks, h1, h2]
      simp only [and_self, if_true, Option.some.injEq, List.cons.injEq, and_true]
      omega
  | [b0, b1], h => by
      have hb0 : b0 < 256 := h b0 (by simp)
      have hb1 : b1 < 256 := h b1 (by simp)
      have h1 := decodeChar_encodeChar (b0 / 4) (by omega)
      have h2 := decodeChar_encodeChar (b0 % 4 * 16 + b1 / 16) (by omega)
      have h3 := decodeChar_encodeChar (b1 % 16 * 4) (by omega)
      have e3 := encodeChar_ne_eq (b1 % 16 * 4) (by omega)
      simp only [encodeChunks, decodeChunks, h1, h2, h3, if_neg e3]
      simp only [and_self, if_true, Option.some.injEq, List.cons.injEq, and_true]
      omega
  | b0 :: b1 :: b2 :: rest, h => by
      have hb0 : b0 < 256 := h b0 (by simp)
      have hb1 : b1 < 256 := h b1 (by simp)
      have hb2 : b2 < 256 := h b2 (by simp)
      have hrest : ∀ b ∈ rest, b < 256 := fun b hb => h b (by simp [hb])
      have ih := decodeChunks_encodeChunks rest hrest
      have h1 := decodeChar_encodeChar (b0 / 4) (by omega)
      have h2 := decodeChar_encodeChar (b0 % 4 * 16 + b1 / 16) (by omega)
      have h3 := decodeChar_encodeChar (b1 % 16 * 4 + b2 / 64) (by omega)
      have h4 := decodeChar_encodeChar (b2 % 64) (by omega)
      have e3 := encodeChar_ne_eq (b1 % 16 * 4 + b2 / 64) (by omega)
      have e4 := encodeChar_ne_eq (b2 % 64) (by omega)
      simp only [encodeChunks, decodeChunks, h1, h2, h3, h4, ih, if_neg e3, if_neg e4]
      simp only [Option.some.injEq, List.cons.injEq, and_true]
      omega

theorem map_ofNat_toNat : ∀ l : List Char, List.map Char.ofNat (List.map Char.toNat l) = l
  | [] => rfl
  | c :: t => by simp [map_ofNat_toNat t, Char.ofNat_toNat]

/-- Round trip at the string level: decoding an encoded Latin-1 string
recovers it. -/
theorem decode_encode (s : String) (h : ∀ c ∈ s.data, c.toNat < 256) :
    decode (encode s) = some s := by
  have hb : ∀ b ∈ s.data.map Char.toNat, b < 256 := by
    intro b hb
    rcases List.mem_map.mp hb with ⟨c, hc, rfl⟩
    exact h c hc
  unfold decode encode
  rw [decodeChunks_encodeChunks (s.data.map Char.toNat) hb]
  show some (String.mk (List.map Char.ofNat (List.map Char.toNat s.data))) = some s
  rw [map_ofNat_toNat]

end base64

/-! ## JSON fragment

Modelled from the spec: `JSON.stringify` / `JSON.parse` are environment
built-ins, not repository code.  Per the data model (§3), every object
this module serializes or parses is a flat object with string-valued
fields, so we model exactly that JSON fragment: the serializer escapes
strings the way `JSON.stringify` does, and the parser accepts flat
objects of string fields (returning `none` on anything else, which the
module treats as a parse failure). -/

/-- Hexadecimal digit character for a value below 16 (lowercase). -/
def hexDigit (n : Nat) : Char :=
  if n < 10 then Char.ofNat (48 + n) else Char.ofNat (87 + n)

/-- Value of a hexadecimal digit character. -/
def hexVal (c : Char) : Option Nat :=
  if 48 ≤ c.toNat ∧ c.toNat ≤ 57 then some (c.toNat - 48)
  else if 97 ≤ c.toNat ∧ c.toNat ≤ 102 then some (c.toNat - 87)
  else if 65 ≤ c.toNat ∧ c.toNat ≤ 70 then some (c.toNat - 55)
  else none

/-- JSON string escaping of one character, as `JSON.stringify` does it:
quote and backslash get a backslash escape, the five named control
characters get their short escapes, other control characters get a
`\u00xx` escape, everything else is untouched. -/
def escapeChar (c : Char) : List Char :=
  if c = '"' then ['\\', '"']
  else if c = '\\' then ['\\', '\\']
  else if c = Char.ofNat 8 then ['\\', 'b']
  else if c = Char.ofNat 9 then ['\\', 't']
  else if c = Char.ofNat 10 then ['\\', 'n']
  else if c = Char.ofNat 12 then ['\\', 'f']
  else if c = Char.ofNat 13 then ['\\', 'r']
  else if c.toNat < 32 then
    ['\\', 'u', '0', '0', hexDigit (c.toNat / 16), hexDigit (c.toNat % 16)]
  else [c]

/-- JSON string escaping of a whole string. -/
def escapeString (s : String) : List Char :=
  (s.data.map escapeChar).flatten

/-- Scan a JSON string literal body (after the opening quote): returns the
unescaped content and the input remaining after the closing quote.  `fuel`
bounds the recursion depth (one unit per decoded character); callers pass
the input length, which always suffices. -/
def scanString : Nat → List Char → Option (List Char × List Char)
  | 0, _ => none
  | fuel + 1, l =>
      match l with
      | [] => none
      | c :: rest =>
          if c = '"' then some ([], rest)
          else if c = '\\' then
            match rest with
            | [] => none
            | e :: rest2 =>
                if e = '"' then (fun p => ('"' :: p.1, p.2)) <$> scanString fuel rest2
                else if e = '\\' then (fun p => ('\\' :: p.1, p.2)) <$> scanString fuel rest2
                else if e = '/' then (fun p => ('/' :: p.1, p.2)) <$> scanString fuel rest2
                else if e = 'b' then (fun p => (Char.ofNat 8 :: p.1, p.2)) <$> scanString fuel rest2
                else if e = 't' then (fun p => (Char.ofNat 9 :: p.1, p.2)) <$> scanString fuel rest2
                else if e = 'n' then (fun p => (Char.ofNat 10 :: p.1, p.2)) <$> scanString fuel rest2
                else if e = 'f' then (fun p => (Char.ofNat 12 :: p.1, p.2)) <$> scanString fuel rest2
                else if e = 'r' then (fun p => (Char.ofNat 13 :: p.1, p.2)) <$> scanString fuel rest2
                else if e = 'u' then
                  match rest2 with
                  | h1 :: h2 :: h3 :: h4 :: rest3 =>
                      match hexVal h1, hexVal h2, hexVal h3, hexVal h4 with
                      | some v1, some v2, some v3, some v4 =>
                          (fun p => (Char.ofNat (((v1 * 16 + v2) * 16 + v3) * 16 + v4) :: p.1, p.2))
                            <$> scanString fuel rest3
                      | _, _, _, _ => none
                  | _ => none
                else none
          else (fun p => (c :: p.1, p.2)) <$> scanString fuel rest

/-- Parse the fields of a flat JSON object with string values, after the
opening brace: a comma-separated sequence of `"key":"value"` pairs closed
by the final brace at the end of input.  `fuel` bounds the number of
fields. -/
def parseFields : Nat → List Char → Option (List (String × String))
  | 0, _ => none
  | fuel + 1, l =>
      match l with
      | '"' :: rest =>
          match scanString (rest.length + 1) rest with
          | some (key, r1) =>
              match r1 with
              | ':' :: '"' :: r2 =>
                  match scanString (r2.length + 1) r2 with
                  | some (val, r3) =>
                      match r3 with
                      | ',' :: r4 =>
                          (fun fs => (String.mk key, String.mk val) :: fs) <$>
                            parseFields fuel r4
                      | ['}'] => some [(String.mk key, String.mk val)]
                      | _ => none
                  | none => none
              | _ => none
          | none => none
      | _ => none

/-- `JSON.parse`, restricted to the flat string-field objects of §3:
`none` models a parse failure (a thrown `SyntaxError`). -/
def jsonParseFlat (s : String) : Option (List (String × String)) :=
  match s.data with
  | '{' :: rest => if rest = ['}'] then some [] else parseFields (rest.length + 1) rest
  | _ => none

/-- `JSON.stringify` of an object with a single (possibly absent) field:
an absent (`undefined`) field is dropped, as `JSON.stringify` does. -/
def jsonStringify1 (key : String) (value : Option String) : String :=
  match value with
  | none => String.mk ['{', '}']
  | some v =>
      String.mk ('{' :: '"' :: (escapeString key ++
        '"' :: ':' :: '"' :: (escapeString v ++ ['"', '}'])))

theorem hexVal_hexDigit : ∀ n, n < 16 → hexVal (hexDigit n) = some n := by decide

/-- One escaped character scans back to itself, costing one unit of fuel. -/
theorem scanString_escapeChar (c : Char) (tail : List Char) (fuel : Nat) :
    scanString (fuel + 1) (escapeChar c ++ tail)
      = (fun p => (c :: p.1, p.2)) <$> scanString fuel tail := by
  by_cases h1 : c = '"'
  · subst h1; rw [escapeChar]; simp only [if_pos rfl, List.cons_append, List.nil_append]
    rw [scanString.eq_def]; simp
  by_cases h2 : c = '\\'
  · subst h2; rw [escapeChar]; simp only [List.cons_append, List.nil_append]
    rw [scanString.eq_def]; simp
  by_cases h3 : c = Char.ofNat 8
  · subst h3; rw [escapeChar]; simp only [List.cons_append, List.nil_append]
    rw [scanString.eq_def]; simp
  by_cases h4 : c = Char.ofNat 9
  · subst h4; rw [escapeChar]; simp only [List.cons_append, List.nil_append]
    rw [scanString.eq_def]; simp
  by_cases h5 : c = Char.ofNat 10
  · subst h5; rw [escapeChar]; simp only [List.cons_append, List.nil_append]
    rw [scanString.eq_def]; simp
  by_cases h6 : c = Char.ofNat 12
  · subst h6; rw [escapeChar]; simp only [List.cons_append, List.nil_append]
    rw [scanString.eq_def]; simp
  by_cases h7 : c = Char.ofNat 13
  · subst h7; rw [escapeChar]; simp only [List.cons_append, List.nil_append]
    rw [scanString.eq_def]; simp
  by_cases h8 : c.toNat < 32
  · rw [escapeChar, if_neg h1, if_neg h2, if_neg h3, if_neg h4, if_neg h5,
      if_neg h6, if_neg h7, if_pos h8]
    simp only [List.cons_append, List.nil_append]
    rw [scanString.eq_def]
    have hv1 := hexVal_hexDigit (c.toNat / 16) (by omega)
    have hv2 := hexVal_hexDigit (c.toNat % 16) (by omega)
    simp only [hv1, hv2]
    have h0 : hexVal '0' = some 0 := by decide
    simp [h0]
    have harith : c.toNat / 16 * 16 + c.toNat % 16 = c.toNat := by omega
    rw [harith, Char.ofNat_toNat]
  · rw [escapeChar, if_neg h1, if_neg h2, if_neg h3, if_neg h4, if_neg h5,
      if_neg h6, if_neg h7, if_neg h8]
    simp only [List.cons_append, List.nil_append]
    rw [scanString.eq_def]
    simp [h1, h2]

/-- Scanning an escaped string followed by a closing quote recovers the
string and the remaining input, for any sufficient fuel. -/
theorem scanString_escape (l rest : List Char) :
    ∀ fuel, l.length < fuel →
      scanString fuel ((l.map escapeChar).flatten ++ ('"' :: rest)) = some (l, rest) := by
  induction l with
  | nil =>
      intro fuel hf
      match fuel, hf with
      | f + 1, _ =>
        simp only [List.map_nil, List.flatten_nil, List.nil_append]
        rw [scanString.eq_def]; simp
  | cons c t ih =>
      intro fuel hf
      match fuel, hf with
      | f + 1, hf =>
        simp only [List.map_cons, List.flatten_cons, List.append_assoc]
        rw [scanString_escapeChar, ih f (by simp at hf; omega)]
        rfl

/-- Escaping never shortens a string. -/
theorem escaped_length_ge (l : List Char) : l.length ≤ (l.map escapeChar).flatten.length := by
  induction l with
  | nil => simp
  | cons c t ih =>
      simp only [List.map_cons, List.flatten_cons, List.length_append, List.length_cons]
      have : 1 ≤ (escapeChar c).length := by
        unfold escapeChar; split_ifs <;> simp
      omega

/-- Parsing a serialized single-field object recovers the field. -/
theorem parseFields_single (fuel : Nat) (key v : String) :
    parseFields (fuel + 1)
      ('"' :: (escapeString key ++ '"' :: ':' :: '"' :: (escapeString v ++ ['"', '}'])))
      = some [(key, v)] := by
  have hlen1 : key.data.length <
      (escapeString key ++ '"' :: ':' :: '"' :: (escapeString v ++ ['"', '}'])).length + 1 := by
    have := escaped_length_ge key.data
    simp only [escapeString, List.length_append, List.length_cons]
    omega
  have hlen2 : v.data.length < (escapeString v ++ ['"', '}']).length + 1 := by
    have := escaped_length_ge v.data
    simp only [escapeString, List.length_append]
    omega
  have h1 := scanString_escape key.data
    (':' :: '"' :: ((v.data.map escapeChar).flatten ++ ('"' :: ['}']))) _ hlen1
  have h2 := scanString_escape v.data ['}'] _ hlen2
  simp only [parseFields, escapeString] at h1 h2 ⊢
  rw [h1]
  simp only [List.length_append] at h2 ⊢
  rw [h2]
  rfl

/-- Round trip of the one-field serializer through the parser. -/
theorem jsonParseFlat_stringify1 (key v : String) :
    jsonParseFlat (jsonStringify1 key (some v)) = some [(key, v)] := by
  have hne : ('"' :: (escapeString key ++ '"' :: ':' :: '"' :: (escapeString v ++ ['"', '}']))) ≠ ['}'] := by
    simp
  show (if ('"' :: (escapeString key ++ '"' :: ':' :: '"' :: (escapeString v ++ ['"', '}']))) = ['}']
      then some []
      else parseFields
        (('"' :: (escapeString key ++ '"' :: ':' :: '"' :: (escapeString v ++ ['"', '}']))).length + 1)
        ('"' :: (escapeString key ++ '"' :: ':' :: '"' :: (escapeString v ++ ['"', '}']))))
      = some [(key, v)]
  rw [if_neg hne]
  exact parseFields_single _ key v

/-- Round trip of the empty-object serializer. -/
theorem jsonParseFlat_stringify1_none (key : String) :
    jsonParseFlat (jsonStringify1 key none) = some [] := by
  rfl

/-! ## Imported configuration and URL helper -/

/-- Modelled from the spec: the fixed window-size table of §6 — five
string codes mapped to `[width, height]` pixel pairs (values as published
by the package); `none` models an absent property. -/
def CHALLENGE_WINDOW_SIZES (code : String) : Option (List String) :=
  if code = "01" then some ["250px", "400px"]
  else if code = "02" then some ["390px", "400px"]
  else if code = "03" then some ["500px", "600px"]
  else if code = "04" then some ["600px", "400px"]
  else if code = "05" then some ["100%", "100%"]
  else none

/-- Modelled from the spec: the designated default window-size code used
on invalid or missing input. -/
def DEFAULT_CHALLENGE_WINDOW_SIZE : String := "02"

/-- Modelled from the spec: `ERRORS.UNKNOWN`, the key of the fixed
"unknown error" entry of the message table. -/
def ERRORS_UNKNOWN : String := "unknownError"

/-- Modelled from the spec: the fixed error-message table of §4.5 mapping
machine-readable error codes to human display messages; `none` models a
code absent from the table. -/
def ERROR_MESSAGES (code : String) : Option String :=
  if code = "timeout" then some "performance timeout"
  else if code = "wrongOrigin" then some "Result came in from the wrong origin"
  else if code = "HTMLElementError" then some "No HTML element passed"
  else if code = "wrongDataType" then some "Result data was not of the expected type"
  else if code = "missingProperty" then some "Expected property was missing from the result data"
  else if code = ERRORS_UNKNOWN then some "An unknown error occurred"
  else none

/-- Helper splitting a URL at the `://` scheme separator. -/
def splitSchemeAux : List Char → Option (List Char × List Char)
  | [] => none
  | ':' :: '/' :: '/' :: rest => some ([], rest)
  | c :: rest => (fun p => (c :: p.1, p.2)) <$> splitSchemeAux rest

/-- Modelled from the spec: `getOrigin` returns the origin
(scheme+host+port) of a URL — everything up to the first path, query or
fragment delimiter after the authority. -/
def getOrigin (url : String) : String :=
  match splitSchemeAux url.data with
  | some (scheme, rest) =>
      String.mk (scheme ++ ':' :: '/' :: '/' ::
        rest.takeWhile (fun c => !(c == '/' || c == '?' || c == '#')))
  | none => url

/-! ## JS value helpers -/

/-- JS truthiness of an optional string: `undefined` and `""` are the
falsy string-or-absent values. -/
def jsFalsy : Option String → Bool
  | none => true
  | some s => s == ""

/-- JS `a || b` on optional strings: `b` when `a` is falsy. -/
def jsOr (a b : Option String) : Option String :=
  match a with
  | none => b
  | some s => if s == "" then b else some s

/-! ## The 3DS2 utility module (`utils.ts`) -/

/-- Result of `decodeAndParseToken` when it does not throw: the JS-falsy
value passed through from a failed or empty base64 decode, or the parsed
token object. -/
inductive TokenResult where
  | boolFalse : TokenResult
  | emptyStr : TokenResult
  | parsed : List (String × String) → TokenResult
deriving DecidableEq

/-- Fields of a decoded token; property access on a falsy decode result
yields `undefined` for every key, hence no fields. -/
def tokenFields : TokenResult → List (String × String)
  | .parsed fs => fs
  | _ => []

/-- JS property access on a parsed JSON object: the last occurrence of a
duplicated key wins (as in `JSON.parse`), `none` for a missing key. -/
def getField (fields : List (String × String)) (key : String) : Option String :=
  fields.reverse.lookup key

/-- `decodeAndParseToken`: base64-decode, then JSON-parse inside a
`try`/`catch` whose `catch` throws `Could not decode token`.  A falsy
decode result (`false` from the decoder, or the empty string) short
circuits `decodedToken && JSON.parse(decodedToken)` and is returned as is,
without parsing. -/
def decodeAndParseToken (token : String) : Except String TokenResult :=
  match base64.decode token with
  | none => .ok .boolFalse
  | some d =>
      if d = "" then .ok .emptyStr
      else
        match jsonParseFlat d with
        | some fields => .ok (.parsed fields)
        | none => .error "Could not decode token"

/-- The `ResultObject` of §3: each field present (`some`) or absent. -/
structure ResultObject where
  threeDSCompInd : Option String
  transStatus : Option String
deriving DecidableEq

/-- `encodeResult`: reject when both result fields are JS-falsy, then
branch on the flow type, serializing exactly the selected field and
base64-encoding the serialization. -/
def encodeResult (result : ResultObject) (type : String) : Except String String :=
  if jsFalsy result.threeDSCompInd && jsFalsy result.transStatus then
    .error "No threeDS2 request details found"
  else if type = "IdentifyShopper" then
    .ok (base64.encode (jsonStringify1 "threeDSCompInd" result.threeDSCompInd))
  else if type = "ChallengeShopper" then
    .ok (base64.encode (jsonStringify1 "transStatus" result.transStatus))
  else
    .error "No data available to create a result"

/-- `validateChallengeWindowSize`: left-pad a single-character size with
`0`, return it if the table has it, else the configured default. -/
def validateChallengeWindowSize (sizeStr : String) : String :=
  let sizeString := if sizeStr.length = 1 then "0" ++ sizeStr else sizeStr
  if (CHALLENGE_WINDOW_SIZES sizeString).isSome then sizeString
  else DEFAULT_CHALLENGE_WINDOW_SIZE

/-- `getChallengeWindowSize`: the `[width, height]` pair of the validated
size code. -/
def getChallengeWindowSize (sizeStr : String) : Option (List String) :=
  CHALLENGE_WINDOW_SIZES (validateChallengeWindowSize sizeStr)

/-- The `cReqData` part of `ChallengeData`. -/
structure CReqData where
  acsTransID : Option String
  messageVersion : Option String
  threeDSServerTransID : Option String
  messageType : String
  challengeWindowSize : String
deriving DecidableEq

/-- `ChallengeData` as built by `prepareChallengeData`. -/
structure ChallengeData where
  acsURL : Option String
  cReqData : CReqData
  iframeSizeArr : Option (List String)
  postMessageDomain : Option String
deriving DecidableEq

/-- `FingerPrintData` as built by `prepareFingerPrintData`. -/
structure FingerPrintData where
  threeDSServerTransID : Option String
  threeDSMethodURL : Option String
  threeDSMethodNotificationURL : Option String
  postMessageDomain : Option String
deriving DecidableEq

/-- `prepareChallengeData`: decode the token, resolve the notification
URL (caller override wins over the token's embedded URL, by JS `||`),
and assemble the challenge parameters. -/
def prepareChallengeData (token : String) (size : String)
    (notificationURL : Option String) : Except String ChallengeData :=
  match decodeAndParseToken token with
  | .error e => .error e
  | .ok decodedChallengeToken =>
      let fs := tokenFields decodedChallengeToken
      let receivedNotificationURL :=
        jsOr notificationURL (getField fs "threeDSNotificationURL")
      .ok {
        acsURL := getField fs "acsURL",
        cReqData := {
          acsTransID := getField fs "acsTransID",
          messageVersion := getField fs "messageVersion",
          threeDSServerTransID := getField fs "threeDSServerTransID",
          messageType := "CReq",
          challengeWindowSize := validateChallengeWindowSize size },
        iframeSizeArr := getChallengeWindowSize size,
        postMessageDomain := receivedNotificationURL.map getOrigin }

/-- `prepareFingerPrintData`: decode the token, resolve the notification
URL with the same precedence, rename the token's `threeDSMethodUrl` to
`threeDSMethodURL`, and assemble the fingerprint parameters. -/
def prepareFingerPrintData (token : String)
    (notificationURL : Option String) : Except String FingerPrintData :=
  match decodeAndParseToken token with
  | .error e => .error e
  | .ok decodedFingerPrintToken =>
      let fs := tokenFields decodedFingerPrintToken
      let receivedNotificationURL :=
        jsOr notificationURL (getField fs "threeDSMethodNotificationURL")
      .ok {
        threeDSServerTransID := getField fs "threeDSServerTransID",
        threeDSMethodURL := getField fs "threeDSMethodUrl",
        threeDSMethodNotificationURL := receivedNotificationURL,
        postMessageDomain := receivedNotificationURL.map getOrigin }

/-- The `ErrorObject` returned by `handleErrorCode`; `message` is
`Option`-valued because JS table lookup can in principle be `undefined`. -/
structure ErrorObject where
  errorCode : String
  message : Option String
deriving DecidableEq

/-- `handleErrorCode`: table lookup with JS `||` fallback to the fixed
unknown-error entry; the input code is returned verbatim. -/
def handleErrorCode (errorCode : String) : ErrorObject :=
  let unknownMessage := ERROR_MESSAGES ERRORS_UNKNOWN
  let message := jsOr (ERROR_MESSAGES errorCode) unknownMessage
  { errorCode := errorCode, message := message }

/-! ## Shared lemmas -/

theorem hexDigit_lt256 : ∀ n, n < 16 → (hexDigit n).toNat < 256 := by decide

/-- Escaping a Latin-1 character yields only Latin-1 characters. -/
theorem escapeChar_lt256 (d : Char) (hd : d.toNat < 256) :
    ∀ c ∈ escapeChar d, c.toNat < 256 := by
  intro c hc
  unfold escapeChar at hc
  split_ifs at hc with h1 h2 h3 h4 h5 h6 h7 h8 <;>
    simp only [List.mem_cons, List.not_mem_nil, or_false] at hc
  · rcases hc with rfl | rfl <;> decide
  · rcases hc with rfl | rfl <;> decide
  · rcases hc with rfl | rfl <;> decide
  · rcases hc with rfl | rfl <;> decide
  · rcases hc with rfl | rfl <;> decide
  · rcases hc with rfl | rfl <;> decide
  · rcases hc with rfl | rfl <;> decide
  · rcases hc with rfl | rfl | rfl | rfl | rfl | rfl
    · decide
    · decide
    · decide
    · decide
    · exact hexDigit_lt256 _ (by omega)
    · exact hexDigit_lt256 _ (by omega)
  · rcases hc with rfl
    exact hd

/-- The one-field serialization of Latin-1 data is Latin-1. -/
theorem jsonStringify1_lt256 (key v : String)
    (hk : ∀ c ∈ key.data, c.toNat < 256) (hv : ∀ c ∈ v.data, c.toNat < 256) :
    ∀ c ∈ (jsonStringify1 key (some v)).data, c.toNat < 256 := by
  intro c hc
  have hesc : ∀ (l : List Char), (∀ x ∈ l, x.toNat < 256) →
      c ∈ (l.map escapeChar).flatten → c.toNat < 256 := by
    intro l hl hcl
    rcases List.mem_flatten.mp hcl with ⟨sub, hsub, hcsub⟩
    rcases List.mem_map.mp hsub with ⟨d, hd, rfl⟩
    exact escapeChar_lt256 d (hl d hd) c hcsub
  simp only [jsonStringify1, escapeString] at hc
  simp only [List.mem_cons, List.mem_append, List.not_mem_nil, or_false] at hc
  rcases hc with rfl | rfl | hc | rfl | rfl | rfl | hc | rfl | rfl
  · decide
  · decide
  · exact hesc key.data hk hc
  · decide
  · decide
  · decide
  · exact hesc v.data hv hc
  · decide
  · decide

/-- The validated window size is always a key of the size table. -/
theorem windowSize_validated_isSome (s : String) :
    (CHALLENGE_WINDOW_SIZES (validateChallengeWindowSize s)).isSome = true := by
  simp only [validateChallengeWindowSize]
  split_ifs with h1 h2 h3 <;> first | assumption | decide

/-! ## Claims -/

/-- C1: for every result object whose selected field (`threeDSCompInd`
for `"IdentifyShopper"`, `transStatus` for `"ChallengeShopper"`) is
present and truthy (and within the Latin-1 domain of the modelled
base64), base64-decoding the output of `encodeResult` and JSON-parsing
it yields an object containing exactly that one field with its original
value and no other field. -/
theorem claim_C1_encodeResult_roundtrip (r : ResultObject) (v : String)
    (hv256 : ∀ c ∈ v.data, c.toNat < 256) (hvne : v ≠ "") :
    (r.threeDSCompInd = some v →
      ∃ out, encodeResult r "IdentifyShopper" = .ok out ∧
        (base64.decode out).bind jsonParseFlat = some [("threeDSCompInd", v)])
    ∧ (r.transStatus = some v →
      ∃ out, encodeResult r "ChallengeShopper" = .ok out ∧
        (base64.decode out).bind jsonParseFlat = some [("transStatus", v)]) := by
  constructor
  · intro h
    have hguard : (jsFalsy r.threeDSCompInd && jsFalsy r.transStatus) = false := by
      rw [h]; simp [jsFalsy, hvne]
    refine ⟨base64.encode (jsonStringify1 "threeDSCompInd" (some v)), ?_, ?_⟩
    · unfold encodeResult
      rw [hguard, h]
      simp
    · rw [base64.decode_encode _ (jsonStringify1_lt256 _ v (by decide) hv256)]
      simp [jsonParseFlat_stringify1]
  · intro h
    have hguard : (jsFalsy r.threeDSCompInd && jsFalsy r.transStatus) = false := by
      rw [h]; simp [jsFalsy, hvne]
    refine ⟨base64.encode (jsonStringify1 "transStatus" (some v)), ?_, ?_⟩
    · unfold encodeResult
      rw [hguard, h]
      simp
    · rw [base64.decode_encode _ (jsonStringify1_lt256 _ v (by decide) hv256)]
      simp [jsonParseFlat_stringify1]

/-- Witness for C1 at concrete result objects. -/
theorem claim_C1_witness :
    (∃ out, encodeResult ⟨some "Y", none⟩ "IdentifyShopper" = .ok out ∧
        (base64.decode out).bind jsonParseFlat = some [("threeDSCompInd", "Y")])
    ∧ (∃ out, encodeResult ⟨some "N", some "Y"⟩ "ChallengeShopper" = .ok out ∧
        (base64.decode out).bind jsonParseFlat = some [("transStatus", "Y")]) :=
  ⟨(claim_C1_encodeResult_roundtrip ⟨some "Y", none⟩ "Y" (by decide) (by decide)).1 rfl,
   (claim_C1_encodeResult_roundtrip ⟨some "N", some "Y"⟩ "Y" (by decide) (by decide)).2 rfl⟩

/-- C4: `encodeResult` throws `No threeDS2 request details found` when
both result fields are absent, for any flow type; succeeds on a result
carrying a truthy `transStatus` with flow type `"ChallengeShopper"`, the
output decoding to exactly that field; and throws the
`No data available to create a result` error on any other flow type even
when both result fields are present and truthy. -/
theorem claim_C4_encodeResult_errors :
    (∀ (r : ResultObject) (type : String),
        r.threeDSCompInd = none → r.transStatus = none →
        encodeResult r type = .error "No threeDS2 request details found")
    ∧ (∀ (r : ResultObject) (v : String),
        r.transStatus = some v → v ≠ "" → (∀ c ∈ v.data, c.toNat < 256) →
        ∃ out, encodeResult r "ChallengeShopper" = .ok out ∧
          (base64.decode out).bind jsonParseFlat = some [("transStatus", v)])
    ∧ (∀ (r : ResultObject) (type cv tv : String),
        r.threeDSCompInd = some cv → cv ≠ "" →
        r.transStatus = some tv → tv ≠ "" →
        type ≠ "IdentifyShopper" → type ≠ "ChallengeShopper" →
        encodeResult r type = .error "No data available to create a result") := by
  refine ⟨?_, ?_, ?_⟩
  · intro r t h1 h2
    unfold encodeResult
    rw [h1, h2]
    simp [jsFalsy]
  · intro r v h hvne hv256
    have hguard : (jsFalsy r.threeDSCompInd && jsFalsy r.transStatus) = false := by
      rw [h]; simp [jsFalsy, hvne]
    refine ⟨base64.encode (jsonStringify1 "transStatus" (some v)), ?_, ?_⟩
    · unfold encodeResult
      rw [hguard, h]
      simp
    · rw [base64.decode_encode _ (jsonStringify1_lt256 _ v (by decide) hv256)]
      simp [jsonParseFlat_stringify1]
  · intro r t cv tv h1 hcv h2 htv ht1 ht2
    have hguard : (jsFalsy r.threeDSCompInd && jsFalsy r.transStatus) = false := by
      rw [h1]; simp [jsFalsy, hcv]
    unfold encodeResult
    rw [hguard, if_neg (by simp), if_neg ht1, if_neg ht2]

/-- Witness for C4 at concrete inputs. -/
theorem claim_C4_witness :
    encodeResult ⟨none, none⟩ "IdentifyShopper" = .error "No threeDS2 request details found"
    ∧ (∃ out, encodeResult ⟨none, some "Y"⟩ "ChallengeShopper" = .ok out ∧
        (base64.decode out).bind jsonParseFlat = some [("transStatus", "Y")])
    ∧ encodeResult ⟨some "Y", some "N"⟩ "SomethingElse"
        = .error "No data available to create a result" :=
  ⟨claim_C4_encodeResult_errors.1 ⟨none, none⟩ "IdentifyShopper" rfl rfl,
   claim_C4_encodeResult_errors.2.1 ⟨none, some "Y"⟩ "Y" rfl (by decide) (by decide),
   claim_C4_encodeResult_errors.2.2 ⟨some "Y", some "N"⟩ "SomethingElse" "Y" "N"
     rfl (by decide) rfl (by decide) (by decide) (by decide)⟩

/-- C9: `encodeResult` rejects on truthiness, not presence — a result
with both fields present but empty (JS-falsy) strings throws
`No threeDS2 request details found` for every flow type. -/
theorem claim_C9_encodeResult_falsy_present (r : ResultObject) (type : String)
    (h1 : r.threeDSCompInd = some "") (h2 : r.transStatus = some "") :
    encodeResult r type = .error "No threeDS2 request details found" := by
  unfold encodeResult
  rw [h1, h2]
  simp [jsFalsy]

/-- Witness for C9 at a concrete result and flow type. -/
theorem claim_C9_witness :
    encodeResult ⟨some "", some ""⟩ "ChallengeShopper"
      = .error "No threeDS2 request details found" :=
  claim_C9_encodeResult_falsy_present ⟨some "", some ""⟩ "ChallengeShopper" rfl rfl

/-- C5 counterexample: `"$$$$"` is not valid base64, so base64 decoding
fails (the decoder yields its JS-falsy failure value) — yet
`decodeAndParseToken` returns that falsy value instead of throwing the
`Could not decode token` error, because the decode call sits outside the
`try` and the falsy result short circuits before `JSON.parse`. -/
theorem claim_C5_counterexample :
    base64.decode "$$$$" = none
    ∧ decodeAndParseToken "$$$$" = .ok TokenResult.boolFalse := by
  exact ⟨rfl, rfl⟩

/-- C5 (amended): `decodeAndParseToken` throws the `Could not decode
token` error exactly when base64 decoding succeeds with a truthy
(non-empty) string that is not valid JSON; when base64 decoding fails,
or succeeds with a falsy (empty) result, the falsy decoder result is
returned without throwing. -/
theorem claim_C5_decodeAndParseToken_errors (token : String) :
    (decodeAndParseToken token = .error "Could not decode token"
      ↔ ∃ d, base64.decode token = some d ∧ d ≠ "" ∧ jsonParseFlat d = none)
    ∧ (base64.decode token = none →
        decodeAndParseToken token = .ok TokenResult.boolFalse)
    ∧ (base64.decode token = some "" →
        decodeAndParseToken token = .ok TokenResult.emptyStr) := by
  refine ⟨⟨?_, ?_⟩, ?_, ?_⟩
  · intro h
    unfold decodeAndParseToken at h
    cases hdec : base64.decode token with
    | none => rw [hdec] at h; exact absurd h (by simp)
    | some d =>
        rw [hdec] at h
        simp only [] at h
        by_cases hd : d = ""
        · rw [if_pos hd] at h; exact absurd h (by simp)
        · rw [if_neg hd] at h
          cases hp : jsonParseFlat d with
          | none => exact ⟨d, rfl, hd, hp⟩
          | some fields => rw [hp] at h; exact absurd h (by simp)
  · rintro ⟨d, hdec, hd, hp⟩
    unfold decodeAndParseToken
    rw [hdec]
    simp only []
    rw [if_neg hd, hp]
  · intro hdec
    unfold decodeAndParseToken
    rw [hdec]
  · intro hdec
    unfold decodeAndParseToken
    rw [hdec]
    simp

/-- Witness for C5 (amended) at concrete tokens: a decodable non-JSON
token throws, the empty token decodes to the falsy empty string and is
returned without throwing. -/
theorem claim_C5_witness :
    decodeAndParseToken (base64.encode "xyz") = .error "Could not decode token"
    ∧ decodeAndParseToken "" = .ok TokenResult.emptyStr :=
  ⟨(claim_C5_decodeAndParseToken_errors (base64.encode "xyz")).1.mpr
      ⟨"xyz", by rfl, by decide, by rfl⟩,
   (claim_C5_decodeAndParseToken_errors "").2.2 (by rfl)⟩

/-- C2: any size whose normalization (single characters are left-padded
with `0`) is not a key of the size table maps to the configured default;
any size that is a key is returned unchanged; single-character inputs are
normalized before lookup, so `"2"` yields `"02"` and `"9"` yields the
default, never `"09"`. -/
theorem claim_C2_validateChallengeWindowSize :
    (∀ s : String,
        (CHALLENGE_WINDOW_SIZES (if s.length = 1 then "0" ++ s else s)).isSome = false →
        validateChallengeWindowSize s = DEFAULT_CHALLENGE_WINDOW_SIZE)
    ∧ (∀ s : String, (CHALLENGE_WINDOW_SIZES s).isSome = true →
        validateChallengeWindowSize s = s)
    ∧ (∀ c : Char, validateChallengeWindowSize (String.mk [c])
        = validateChallengeWindowSize (String.mk ['0', c]))
    ∧ validateChallengeWindowSize "2" = "02"
    ∧ validateChallengeWindowSize "9" = DEFAULT_CHALLENGE_WINDOW_SIZE := by
  refine ⟨?_, ?_, ?_, by decide, by decide⟩
  · intro s h
    unfold validateChallengeWindowSize
    simp [h]
  · intro s h
    unfold CHALLENGE_WINDOW_SIZES at h
    split_ifs at h with h1 h2 h3 h4 h5
    · subst h1; decide
    · subst h2; decide
    · subst h3; decide
    · subst h4; decide
    · subst h5; decide
    · simp at h
  · intro c
    rfl

/-- Witness for C2 at concrete sizes. -/
theorem claim_C2_witness :
    validateChallengeWindowSize "junk" = DEFAULT_CHALLENGE_WINDOW_SIZE
    ∧ validateChallengeWindowSize "03" = "03"
    ∧ validateChallengeWindowSize (String.mk ['7'])
        = validateChallengeWindowSize (String.mk ['0', '7']) :=
  ⟨claim_C2_validateChallengeWindowSize.1 "junk" (by decide),
   claim_C2_validateChallengeWindowSize.2.1 "03" (by decide),
   claim_C2_validateChallengeWindowSize.2.2.1 '7'⟩

/-- C6: `handleErrorCode` returns the input code verbatim; its message is
the table entry when the code is in the fixed message table and the fixed
unknown-error message otherwise; the message is always a non-empty
string. -/
theorem claim_C6_handleErrorCode (code : String) :
    (handleErrorCode code).errorCode = code
    ∧ (∀ m, ERROR_MESSAGES code = some m → (handleErrorCode code).message = some m)
    ∧ (ERROR_MESSAGES code = none →
        (handleErrorCode code).message = ERROR_MESSAGES ERRORS_UNKNOWN)
    ∧ ∃ m, (handleErrorCode code).message = some m ∧ m ≠ "" := by
  have hentry : ∀ m, ERROR_MESSAGES code = some m → m ≠ "" := by
    intro m hm
    unfold ERROR_MESSAGES at hm
    split_ifs at hm <;> simp only [Option.some.injEq] at hm <;> subst hm <;> decide
  refine ⟨rfl, ?_, ?_, ?_⟩
  · intro m hm
    have hmne := hentry m hm
    show jsOr (ERROR_MESSAGES code) (ERROR_MESSAGES ERRORS_UNKNOWN) = some m
    rw [hm]
    unfold jsOr
    simp [hmne]
  · intro hm
    show jsOr (ERROR_MESSAGES code) (ERROR_MESSAGES ERRORS_UNKNOWN)
        = ERROR_MESSAGES ERRORS_UNKNOWN
    rw [hm]
    rfl
  · cases hm : ERROR_MESSAGES code with
    | some m =>
        have hmne := hentry m hm
        refine ⟨m, ?_, hmne⟩
        show jsOr (ERROR_MESSAGES code) (ERROR_MESSAGES ERRORS_UNKNOWN) = some m
        rw [hm]
        unfold jsOr
        simp [hmne]
    | none =>
        refine ⟨"An unknown error occurred", ?_, by decide⟩
        show jsOr (ERROR_MESSAGES code) (ERROR_MESSAGES ERRORS_UNKNOWN)
            = some "An unknown error occurred"
        rw [hm]
        rfl

/-- Witness for C6 at a known and an unknown code. -/
theorem claim_C6_witness :
    (handleErrorCode "totally-unknown-code").errorCode = "totally-unknown-code"
    ∧ (handleErrorCode "timeout").message = some "performance timeout"
    ∧ (handleErrorCode "totally-unknown-code").message = ERROR_MESSAGES ERRORS_UNKNOWN :=
  ⟨(claim_C6_handleErrorCode "totally-unknown-code").1,
   (claim_C6_handleErrorCode "timeout").2.1 "performance timeout" (by decide),
   (claim_C6_handleErrorCode "totally-unknown-code").2.2.1 (by decide)⟩

/-- C3: for every decodable token, the derived `postMessageDomain` is the
origin of the caller-supplied notification URL when a (truthy) one is
provided, and otherwise the origin of the notification URL embedded in
the token (`threeDSNotificationURL` for the challenge builder,
`threeDSMethodNotificationURL` for the fingerprint builder). -/
theorem claim_C3_postMessageDomain_precedence (token size u : String)
    (fs : List (String × String))
    (hdec : decodeAndParseToken token = .ok (.parsed fs)) (hu : u ≠ "") :
    (∃ cd : ChallengeData, prepareChallengeData token size (some u) = .ok cd ∧
        cd.postMessageDomain = some (getOrigin u))
    ∧ (∃ cd : ChallengeData, prepareChallengeData token size none = .ok cd ∧
        cd.postMessageDomain = (getField fs "threeDSNotificationURL").map getOrigin)
    ∧ (∃ fd : FingerPrintData, prepareFingerPrintData token (some u) = .ok fd ∧
        fd.postMessageDomain = some (getOrigin u))
    ∧ (∃ fd : FingerPrintData, prepareFingerPrintData token none = .ok fd ∧
        fd.postMessageDomain = (getField fs "threeDSMethodNotificationURL").map getOrigin) := by
  have hbeq : (u == "") = false := by simp [hu]
  have hjsOr : ∀ x, jsOr (some u) x = some u := by
    intro x
    unfold jsOr
    simp [hbeq]
  have e1 : ∀ w : Option String, prepareChallengeData token size w = .ok {
      acsURL := getField fs "acsURL",
      cReqData := {
        acsTransID := getField fs "acsTransID",
        messageVersion := getField fs "messageVersion",
        threeDSServerTransID := getField fs "threeDSServerTransID",
        messageType := "CReq",
        challengeWindowSize := validateChallengeWindowSize size },
      iframeSizeArr := getChallengeWindowSize size,
      postMessageDomain := (jsOr w (getField fs "threeDSNotificationURL")).map getOrigin } := by
    intro w
    unfold prepareChallengeData
    rw [hdec]
    rfl
  have e2 : ∀ w : Option String, prepareFingerPrintData token w = .ok {
      threeDSServerTransID := getField fs "threeDSServerTransID",
      threeDSMethodURL := getField fs "threeDSMethodUrl",
      threeDSMethodNotificationURL := jsOr w (getField fs "threeDSMethodNotificationURL"),
      postMessageDomain := (jsOr w (getField fs "threeDSMethodNotificationURL")).map getOrigin } := by
    intro w
    unfold prepareFingerPrintData
    rw [hdec]
    rfl
  refine ⟨⟨_, e1 (some u), ?_⟩, ⟨_, e1 none, ?_⟩, ⟨_, e2 (some u), ?_⟩, ⟨_, e2 none, ?_⟩⟩
  · show (jsOr (some u) (getField fs "threeDSNotificationURL")).map getOrigin
        = some (getOrigin u)
    rw [hjsOr]
    rfl
  · rfl
  · show (jsOr (some u) (getField fs "threeDSMethodNotificationURL")).map getOrigin
        = some (getOrigin u)
    rw [hjsOr]
    rfl
  · rfl

/-- Witness for C3 at a concrete decodable token and override. -/
theorem claim_C3_witness :
    (∃ cd : ChallengeData,
        prepareChallengeData
          (base64.encode "\x7b\"threeDSNotificationURL\":\"https://token.example/n\"\x7d")
          "02" (some "https://caller.example/cb") = .ok cd ∧
        cd.postMessageDomain = some (getOrigin "https://caller.example/cb"))
    ∧ (∃ cd : ChallengeData,
        prepareChallengeData
          (base64.encode "\x7b\"threeDSNotificationURL\":\"https://token.example/n\"\x7d")
          "02" none = .ok cd ∧
        cd.postMessageDomain =
          (getField [("threeDSNotificationURL", "https://token.example/n")]
            "threeDSNotificationURL").map getOrigin) :=
  ⟨(claim_C3_postMessageDomain_precedence
      (base64.encode "\x7b\"threeDSNotificationURL\":\"https://token.example/n\"\x7d")
      "02" "https://caller.example/cb"
      [("threeDSNotificationURL", "https://token.example/n")]
      (by rfl) (by decide)).1,
   (claim_C3_postMessageDomain_precedence
      (base64.encode "\x7b\"threeDSNotificationURL\":\"https://token.example/n\"\x7d")
      "02" "https://caller.example/cb"
      [("threeDSNotificationURL", "https://token.example/n")]
      (by rfl) (by decide)).2.1⟩

/-- C7: on the token base64-encoding the given fingerprint JSON object
and no caller override, `prepareFingerPrintData` returns the transaction
id, the token's `threeDSMethodUrl` renamed to `threeDSMethodURL`, and the
postMessage domain `https://merchant.example` (the origin of the token's
notification URL). -/
theorem claim_C7_fingerprint_scenario :
    prepareFingerPrintData
      (base64.encode "\x7b\"threeDSServerTransID\":\"abc\",\"threeDSMethodUrl\":\"https://acs.example/m\",\"threeDSMethodNotificationURL\":\"https://merchant.example/notify\"\x7d")
      none
      = .ok { threeDSServerTransID := some "abc",
              threeDSMethodURL := some "https://acs.example/m",
              threeDSMethodNotificationURL := some "https://merchant.example/notify",
              postMessageDomain := some "https://merchant.example" } := by
  rfl

/-- C8: for every decodable challenge token and every size string, the
built `ChallengeData` has the literal `messageType = "CReq"`, carries the
token's transaction identifiers verbatim, stores the validated size code,
and its `iframeSizeArr` is exactly the size-table entry for the stored
code (which is always present in the table). -/
theorem claim_C8_challengeData_shape (token size : String) (u : Option String)
    (fs : List (String × String))
    (hdec : decodeAndParseToken token = .ok (.parsed fs)) :
    ∃ cd : ChallengeData, prepareChallengeData token size u = .ok cd
      ∧ cd.cReqData.messageType = "CReq"
      ∧ cd.cReqData.acsTransID = getField fs "acsTransID"
      ∧ cd.cReqData.messageVersion = getField fs "messageVersion"
      ∧ cd.cReqData.threeDSServerTransID = getField fs "threeDSServerTransID"
      ∧ cd.cReqData.challengeWindowSize = validateChallengeWindowSize size
      ∧ cd.iframeSizeArr = CHALLENGE_WINDOW_SIZES cd.cReqData.challengeWindowSize
      ∧ (CHALLENGE_WINDOW_SIZES cd.cReqData.challengeWindowSize).isSome = true := by
  have e1 : prepareChallengeData token size u = .ok {
      acsURL := getField fs "acsURL",
      cReqData := {
        acsTransID := getField fs "acsTransID",
        messageVersion := getField fs "messageVersion",
        threeDSServerTransID := getField fs "threeDSServerTransID",
        messageType := "CReq",
        challengeWindowSize := validateChallengeWindowSize size },
      iframeSizeArr := getChallengeWindowSize size,
      postMessageDomain := (jsOr u (getField fs "threeDSNotificationURL")).map getOrigin } := by
    unfold prepareChallengeData
    rw [hdec]
    rfl
  exact ⟨_, e1, rfl, rfl, rfl, rfl, rfl, rfl, windowSize_validated_isSome size⟩

/-- Witness for C8 at a concrete token and size. -/
theorem claim_C8_witness :
    ∃ cd : ChallengeData,
      prepareChallengeData
        (base64.encode "\x7b\"acsTransID\":\"a1\",\"messageVersion\":\"2.1.0\",\"threeDSServerTransID\":\"t9\"\x7d")
        "9" none = .ok cd
      ∧ cd.cReqData.messageType = "CReq"
      ∧ cd.cReqData.acsTransID
          = getField [("acsTransID", "a1"), ("messageVersion", "2.1.0"),
              ("threeDSServerTransID", "t9")] "acsTransID"
      ∧ cd.cReqData.messageVersion
          = getField [("acsTransID", "a1"), ("messageVersion", "2.1.0"),
              ("threeDSServerTransID", "t9")] "messageVersion"
      ∧ cd.cReqData.threeDSServerTransID
          = getField [("acsTransID", "a1"), ("messageVersion", "2.1.0"),
              ("threeDSServerTransID", "t9")] "threeDSServerTransID"
      ∧ cd.cReqData.challengeWindowSize = validateChallengeWindowSize "9"
      ∧ cd.iframeSizeArr = CHALLENGE_WINDOW_SIZES cd.cReqData.challengeWindowSize
      ∧ (CHALLENGE_WINDOW_SIZES cd.cReqData.challengeWindowSize).isSome = true := by
  refine claim_C8_challengeData_shape
    (base64.encode "\x7b\"acsTransID\":\"a1\",\"messageVersion\":\"2.1.0\",\"threeDSServerTransID\":\"t9\"\x7d")
    "9" none
    [("acsTransID", "a1"), ("messageVersion", "2.1.0"), ("threeDSServerTransID", "t9")]
    (by rfl)

/-- C10: the `threeDSMethodNotificationURL` field returned by
`prepareFingerPrintData` is the resolved notification URL — the caller
override when a (truthy) one is supplied, else the token's embedded
`threeDSMethodNotificationURL`. -/
theorem claim_C10_fingerprint_notificationURL (token u : String)
    (fs : List (String × String))
    (hdec : decodeAndParseToken token = .ok (.parsed fs)) (hu : u ≠ "") :
    (∃ fd : FingerPrintData, prepareFingerPrintData token (some u) = .ok fd ∧
        fd.threeDSMethodNotificationURL = some u)
    ∧ (∃ fd : FingerPrintData, prepareFingerPrintData token none = .ok fd ∧
        fd.threeDSMethodNotificationURL = getField fs "threeDSMethodNotificationURL") := by
  have hbeq : (u == "") = false := by simp [hu]
  have hjsOr : ∀ x, jsOr (some u) x = some u := by
    intro x
    unfold jsOr
    simp [hbeq]
  have e2 : ∀ w : Option String, prepareFingerPrintData token w = .ok {
      threeDSServerTransID := getField fs "threeDSServerTransID",
      threeDSMethodURL := getField fs "threeDSMethodUrl",
      threeDSMethodNotificationURL := jsOr w (getField fs "threeDSMethodNotificationURL"),
      postMessageDomain := (jsOr w (getField fs "threeDSMethodNotificationURL")).map getOrigin } := by
    intro w
    unfold prepareFingerPrintData
    rw [hdec]
    rfl
  refine ⟨⟨_, e2 (some u), ?_⟩, ⟨_, e2 none, ?_⟩⟩
  · show jsOr (some u) (getField fs "threeDSMethodNotificationURL") = some u
    rw [hjsOr]
  · rfl

/-- Witness for C10 at a concrete token and override. -/
theorem claim_C10_witness :
    (∃ fd : FingerPrintData,
        prepareFingerPrintData
          (base64.encode "\x7b\"threeDSMethodNotificationURL\":\"https://token.example/n\"\x7d")
          (some "https://caller.example/cb") = .ok fd ∧
        fd.threeDSMethodNotificationURL = some "https://caller.example/cb")
    ∧ (∃ fd : FingerPrintData,
        prepareFingerPrintData
          (base64.encode "\x7b\"threeDSMethodNotificationURL\":\"https://token.example/n\"\x7d")
          none = .ok fd ∧
        fd.threeDSMethodNotificationURL =
          getField [("threeDSMethodNotificationURL", "https://token.example/n")]
            "threeDSMethodNotificationURL") :=
  claim_C10_fingerprint_notificationURL
    (base64.encode "\x7b\"threeDSMethodNotificationURL\":\"https://token.example/n\"\x7d")
    "https://caller.example/cb"
    [("threeDSMethodNotificationURL", "https://token.example/n")]
    (by rfl) (by decide)

end ThreeDS2
